import Mathlib

/-!
Verification model of the HireFree repository.

Two independent features are embedded here, following the sources:

* the frame deposit approval transaction route
  (`src/bot/frame/app/frames/deposit/tx/approval/route.ts`): a stateless
  POST handler that maps a network key to a static chain configuration and
  returns an ERC-20 approve transaction descriptor, or a generic 400 error;
* the freelancer registration form component (`src/unnamed/part_000`):
  a submit handler mapping wallet/HTTP outcomes to error and toast state,
  plus the skills-input splitting helper and the error banner actions.

External collaborators (the HTTP layer, the wallet connector, the fetch
call, and the blockchain encoding library) are modelled at their observable
interfaces; machine-level details they hide (JSON bytes, ABI byte strings)
are represented by the data that determines them.
-/

/-! ### Static chain constants -/

/-- The numeric chain id of the Optimism Sepolia testnet, as exported by the
blockchain client library's public chain registry. -/
def optimismSepoliaId : Nat := 11155420

/-- The numeric chain id of the Arbitrum Sepolia testnet, as exported by the
blockchain client library's public chain registry. -/
def arbitrumSepoliaId : Nat := 421614

/-- Modelled from the spec: the deposit-contract address for
optimism-sepolia, from the static constants module that is not among the
sources. The spec names the address but gives no concrete value, so it is a
distinct symbolic address. -/
def contractAddressOptimismSepolia : String := "deposit-contract@optimism-sepolia"

/-- Modelled from the spec: the deposit-contract address for
arbitrum-sepolia, from the static constants module that is not among the
sources. -/
def contractAddressArbitrumSepolia : String := "deposit-contract@arbitrum-sepolia"

/-- Modelled from the spec: the stablecoin (USDC) contract address for
optimism-sepolia, from the static constants module that is not among the
sources. -/
def usdcOptimismSepolia : String := "usdc@optimism-sepolia"

/-- Modelled from the spec: the stablecoin (USDC) contract address for
arbitrum-sepolia, from the static constants module that is not among the
sources. -/
def usdcArbitrumSepolia : String := "usdc@arbitrum-sepolia"

/-- A chain configuration: chain identity plus the two contract addresses
the route needs (`ChainConfig` in the route source; its `chain` field is
the library chain object, of which only the numeric id is observable in the
response). -/
structure ChainConfig where
  chainId : Nat
  contractAddress : String
  usdcAddress : String
deriving DecidableEq

/-- The static `chainConfigs` table of the route source: exactly two keys,
"optimism-sepolia" and "arbitrum-sepolia"; every other key is absent. -/
def chainConfigs (key : String) : Option ChainConfig :=
  if key = "optimism-sepolia" then
    some ⟨optimismSepoliaId, contractAddressOptimismSepolia, usdcOptimismSepolia⟩
  else if key = "arbitrum-sepolia" then
    some ⟨arbitrumSepoliaId, contractAddressArbitrumSepolia, usdcArbitrumSepolia⟩
  else
    none

/-! ### Frame request payload -/

/-- `UntrustedData` of the route source. `inputText` and `network` are the
optional fields; the rest are required by the interface and unused by the
handler beyond being carried in the payload. -/
structure UntrustedData where
  buttonIndex : Nat
  inputText : Option String
  walletAddress : String
  url : String
  timestamp : Nat
  state : String
  address : String
  network : Option String
deriving DecidableEq

/-- `TrustedData` of the route source. -/
structure TrustedData where
  messageBytes : String
deriving DecidableEq

/-- `FrameRequest` of the route source. The runtime does not enforce the
declared interface, and the handler explicitly checks both fields, so each
is optional here. -/
structure FrameRequest where
  untrustedData : Option UntrustedData
  trustedData : Option TrustedData
deriving DecidableEq

/-- JavaScript `v || d` on an optional string field: the default replaces
an absent field and also the empty string, which is falsy. -/
def strOrDefault (v : Option String) (d : String) : String :=
  match v with
  | none => d
  | some s => if s = "" then d else s

/-! ### Decimal parsing and ABI encoding (external library boundary) -/

/-- Split a character list at every occurrence of `sep`, keeping empty
segments, as JavaScript `String.prototype.split` does with a one-character
separator (the empty input yields one empty segment). -/
def splitOnChar (sep : Char) : List Char → List (List Char)
  | [] => [[]]
  | c :: cs =>
    if c = sep then [] :: splitOnChar sep cs
    else
      match splitOnChar sep cs with
      | r :: rs => (c :: r) :: rs
      | [] => [[c]]

/-- The numeric value of a list of decimal digit characters, most
significant first. -/
def decDigitsVal (l : List Char) : Nat :=
  l.foldl (fun n c => n * 10 + (c.toNat - 48)) 0

/-- Modelled from the spec: the external library's `parseUnits`, described
by the spec as parsing a decimal amount scaled to `decimals` fractional
digits into an integer base-unit amount, failing when the text is not a
valid decimal numeral. A valid decimal numeral here is digits with at most
one decimal point and at least one digit; a fractional part longer than
`decimals` digits is rounded half-up, as the library does. Signed input is
rejected: the route would reject a negative amount at its encoding step, so
at the route's observable boundary it is a failure all the same. -/
def parseUnits (value : String) (decimals : Nat) : Option Nat :=
  match splitOnChar '.' value.data with
  | [i] =>
    if !i.isEmpty && i.all Char.isDigit then
      some (decDigitsVal i * 10 ^ decimals)
    else none
  | [i, f] =>
    if (!i.isEmpty || !f.isEmpty) && i.all Char.isDigit && f.all Char.isDigit then
      if f.length ≤ decimals then
        some (decDigitsVal i * 10 ^ decimals + decDigitsVal f * 10 ^ (decimals - f.length))
      else
        some (decDigitsVal i * 10 ^ decimals +
          (decDigitsVal f + 5 * 10 ^ (f.length - decimals - 1)) / 10 ^ (f.length - decimals))
    else none
  | _ => none

/-- The ABI call data of an ERC-20 `approve(spender, amount)` call. The
encoding library is external and its byte output is opaque to this
codebase, so the call data is represented by the function name and the
arguments that determine it (the encoding is injective in these). -/
structure ApproveCallData where
  functionName : String
  spender : String
  amount : Nat
deriving DecidableEq

/-- The approve ABI encoding of an in-range spender address and base-unit
amount: the pure value the external encoder produces when it succeeds. -/
def encodeFunctionDataApprove (spender : String) (amount : Nat) : ApproveCallData :=
  ⟨"approve", spender, amount⟩

/-- The external library's `encodeFunctionData` call as the route invokes
it. The encoder range-checks the integer argument against the declared
`uint256` parameter type and throws an out-of-range error when the amount
exceeds `2 ^ 256 - 1` (a scaled amount of 78 or more digits does), so the
call is fallible; in range it yields the approve encoding. -/
def encodeFunctionDataApproveChecked (spender : String) (amount : Nat) :
    Option ApproveCallData :=
  if amount < 2 ^ 256 then some (encodeFunctionDataApprove spender amount) else none

/-! ### The approval route handler -/

/-- The `params` object of the route's success response. The source field
`to` is a Lean keyword, so it is named `toAddress` here. -/
structure TxParams where
  toAddress : String
  data : ApproveCallData
deriving DecidableEq

/-- The route's success response body (the `abi` field is the static USDC
interface description, identical in every response, so it carries no
information and is omitted). -/
structure TxDescriptor where
  chainId : String
  method : String
  params : TxParams
deriving DecidableEq

/-- The handler's observable HTTP result: a 200 JSON transaction descriptor
or a 400 JSON error body `{error: message}`. -/
inductive PostResult where
  | ok : TxDescriptor → PostResult
  | badRequest : String → PostResult
deriving DecidableEq

/-- The approval route's `POST` handler. `none` models a request body that
fails to parse as JSON; every thrown error is caught and answered with the
one generic 400 body, the underlying cause being logged server-side only. -/
def POST (body : Option FrameRequest) : PostResult :=
  match body with
  | none => .badRequest "Failed to process frame request"
  | some json =>
    match json.untrustedData, json.trustedData with
    | some untrustedData, some _ =>
      let chainKey := strOrDefault untrustedData.network "optimism-sepolia"
      match chainConfigs chainKey with
      | none => .badRequest "Failed to process frame request"
      | some chainConfig =>
        let inputAmount := strOrDefault untrustedData.inputText "1"
        match parseUnits inputAmount 6 with
        | none => .badRequest "Failed to process frame request"
        | some amt =>
          match encodeFunctionDataApproveChecked chainConfig.contractAddress amt with
          | none => .badRequest "Failed to process frame request"
          | some calldata =>
            .ok { chainId := "eip155:" ++ Nat.repr chainConfig.chainId,
                  method := "eth_sendTransaction",
                  params := { toAddress := chainConfig.usdcAddress,
                              data := calldata } }
    | _, _ => .badRequest "Failed to process frame request"

/-- The route handler on a well-formed body, as a function of the only two
payload fields it reads. -/
def approvalCore (network inputText : Option String) : PostResult :=
  match chainConfigs (strOrDefault network "optimism-sepolia") with
  | none => .badRequest "Failed to process frame request"
  | some chainConfig =>
    match parseUnits (strOrDefault inputText "1") 6 with
    | none => .badRequest "Failed to process frame request"
    | some amt =>
      match encodeFunctionDataApproveChecked chainConfig.contractAddress amt with
      | none => .badRequest "Failed to process frame request"
      | some calldata =>
        .ok { chainId := "eip155:" ++ Nat.repr chainConfig.chainId,
              method := "eth_sendTransaction",
              params := { toAddress := chainConfig.usdcAddress,
                          data := calldata } }

/-- The failure condition of the route, stated from the spec's words: the
body fails to parse, a data section is absent, the resolved network key has
no chain configuration, the resolved amount text does not parse, or the
encoding of the approve call throws. -/
def postFailureCondition (body : Option FrameRequest) : Bool :=
  match body with
  | none => true
  | some json =>
    match json.untrustedData, json.trustedData with
    | some u, some _ =>
      ((chainConfigs (strOrDefault u.network "optimism-sepolia")).bind fun cfg =>
        (parseUnits (strOrDefault u.inputText "1") 6).bind fun amt =>
          encodeFunctionDataApproveChecked cfg.contractAddress amt).isNone
    | _, _ => true

/-! ### Registration form component -/

/-- The error tags of the component's `ErrorType`. -/
inductive ErrorKind where
  | REGISTRATION_FAILED : ErrorKind
  | ALREADY_REGISTERED : ErrorKind
  | WALLET_NOT_CONNECTED : ErrorKind
deriving DecidableEq

/-- The component's `error` state: an optional tag plus a display message. -/
structure ErrorState where
  type : Option ErrorKind
  message : String
deriving DecidableEq

/-- The toast severities. -/
inductive ToastType where
  | success : ToastType
  | error : ToastType
  | warning : ToastType
deriving DecidableEq

/-- The component's `toast` state. The source field `show` is a Lean
keyword, so it is named `visible` here. -/
structure ToastState where
  visible : Bool
  message : String
  type : ToastType
deriving DecidableEq

/-- The component state the submit handler touches: error banner, toast and
loading flag. -/
structure FormState where
  error : ErrorState
  toast : ToastState
  loading : Bool
deriving DecidableEq

/-- The component's initial state: no error, a hidden success-typed toast,
not loading. -/
def initialFormState : FormState :=
  ⟨⟨none, ""⟩, ⟨false, "", .success⟩, false⟩

/-- JavaScript truthiness of the connected wallet address `address`:
`!address` is true when the address is absent and also for the empty
string, which is falsy. -/
def isFalsyStr (v : Option String) : Bool :=
  match v with
  | none => true
  | some s => s = ""

/-- The observable outcome of the `fetch` call and the `response.json()`
parse inside the submit handler's try block:
* `ok`: the response is HTTP-ok and its body parses;
* `notOk msg`: the response is not ok and its parsed body carries `msg` in
  its `message` field (`none` when the field is absent);
* `throws m`: the fetch or the body parse throws an `Error` whose
  `message` is `m`. -/
inductive FetchOutcome where
  | ok : FetchOutcome
  | notOk : Option String → FetchOutcome
  | throws : String → FetchOutcome
deriving DecidableEq

/-- The success toast set on an ok response. -/
def successToast : ToastState :=
  ⟨true, "Registration successful! Redirecting to dashboard...", .success⟩

/-- The warning toast set on the already-registered backend message. -/
def warningToast : ToastState :=
  ⟨true, "This wallet is already registered", .warning⟩

/-- The error toast set on every other failure. -/
def errorToast : ToastState :=
  ⟨true, "Registration failed. Please try again later.", .error⟩

/-- The result of one completed run of `handleSubmit`: the component state
it leaves behind, whether the registration POST was issued, and whether the
3-second redirect to the home route was scheduled. -/
structure SubmitResult where
  state : FormState
  networkCalled : Bool
  redirectScheduled : Bool
deriving DecidableEq

/-- The component's `handleSubmit`, one completed run. It first sets
`loading` and clears `error`; with a falsy address it records
WALLET_NOT_CONNECTED and returns before any network call. Otherwise the
try block issues the POST; a not-ok response with the already-registered
message sets the warning toast and throws the ALREADY_REGISTERED sentinel,
any other not-ok response throws the REGISTRATION_FAILED sentinel, and the
catch block dispatches on the caught message: ALREADY_REGISTERED sets that
error, everything else sets the error toast and REGISTRATION_FAILED. The
finally block clears `loading` on every path. -/
def handleSubmit (address : Option String) (outcome : FetchOutcome)
    (s : FormState) : SubmitResult :=
  let s1 : FormState := { s with loading := true, error := ⟨none, ""⟩ }
  if isFalsyStr address then
    ⟨{ s1 with
         error := ⟨some .WALLET_NOT_CONNECTED, "Please connect your wallet first"⟩,
         loading := false },
     false, false⟩
  else
    match outcome with
    | .ok =>
      ⟨{ s1 with toast := successToast, loading := false }, true, true⟩
    | .notOk msg =>
      if msg = some "This wallet is already registered" then
        ⟨{ s1 with
             toast := warningToast,
             error := ⟨some .ALREADY_REGISTERED,
                       "This wallet is already registered. Cannot register more than once."⟩,
             loading := false },
         true, false⟩
      else
        ⟨{ s1 with
             toast := errorToast,
             error := ⟨some .REGISTRATION_FAILED,
                       "Registration failed. Please try again later."⟩,
             loading := false },
         true, false⟩
    | .throws m =>
      if m = "ALREADY_REGISTERED" then
        ⟨{ s1 with
             error := ⟨some .ALREADY_REGISTERED,
                       "This wallet is already registered. Cannot register more than once."⟩,
             loading := false },
         true, false⟩
      else
        ⟨{ s1 with
             toast := errorToast,
             error := ⟨some .REGISTRATION_FAILED,
                       "Registration failed. Please try again later."⟩,
             loading := false },
         true, false⟩

/-- The actions the `ErrorMessage` banner renders for each error tag:
a login-route link for ALREADY_REGISTERED, a Try Again button for
REGISTRATION_FAILED, nothing for WALLET_NOT_CONNECTED. -/
inductive ErrorAction where
  | goToLoginLink : ErrorAction
  | tryAgainButton : ErrorAction
deriving DecidableEq

/-- The `errorActions` table of the `ErrorMessage` banner. -/
def errorActions : ErrorKind → List ErrorAction
  | .ALREADY_REGISTERED => [.goToLoginLink]
  | .REGISTRATION_FAILED => [.tryAgainButton]
  | .WALLET_NOT_CONNECTED => []

/-- The Try Again button's click handler: it resets the error state to
none. -/
def tryAgainClick (s : FormState) : FormState :=
  { s with error := ⟨none, ""⟩ }

/-- How many of the three indicators named by the spec's invariant are
active in a state: the error banner (a non-null error tag), a visible
success toast, and a visible warning toast. -/
def activeCount (s : FormState) : Nat :=
  (if s.error.type.isSome then 1 else 0) +
  (if s.toast.visible && s.toast.type = ToastType.success then 1 else 0) +
  (if s.toast.visible && s.toast.type = ToastType.warning then 1 else 0)

/-- Whitespace as trimmed by JavaScript `String.prototype.trim` (the ASCII
whitespace characters that occur in practice here). -/
def isSpaceChar (c : Char) : Bool :=
  c = ' ' || c = '\t' || c = '\n' || c = '\r'

/-- JavaScript `String.prototype.trim` on a character list: drop leading
and trailing whitespace. -/
def trimChars (l : List Char) : List Char :=
  ((l.dropWhile isSpaceChar).reverse.dropWhile isSpaceChar).reverse

/-- The component's `handleSkillsChange`, reduced to the derived skills
list it stores: split the raw text on commas and trim each segment. -/
def handleSkillsChange (value : String) : List String :=
  (splitOnChar ',' value.data).map (fun l => String.mk (trimChars l))

/-! ### Helper lemmas -/

/-- On a well-formed body the route handler reads only the `network` and
`inputText` fields of the untrusted data. -/
theorem POST_some (u : UntrustedData) (t : TrustedData) :
    POST (some ⟨some u, some t⟩) = approvalCore u.network u.inputText := rfl

/-- With the input text absent, the amount parses to 1000000 base units and
the rest of the response is determined by the chain lookup. -/
theorem approvalCore_inputNone (nw : Option String) :
    approvalCore nw none =
      (match chainConfigs (strOrDefault nw "optimism-sepolia") with
       | none => PostResult.badRequest "Failed to process frame request"
       | some cfg =>
         PostResult.ok ⟨"eip155:" ++ Nat.repr cfg.chainId, "eth_sendTransaction",
           ⟨cfg.usdcAddress, encodeFunctionDataApprove cfg.contractAddress 1000000⟩⟩) := by
  unfold approvalCore
  cases chainConfigs (strOrDefault nw "optimism-sepolia") <;> rfl

/-- With the network key absent, the chain lookup yields the
optimism-sepolia configuration and the rest of the response is determined
by the amount parse. -/
theorem approvalCore_networkNone (it : Option String) :
    approvalCore none it =
      (match parseUnits (strOrDefault it "1") 6 with
       | none => PostResult.badRequest "Failed to process frame request"
       | some amt =>
         match encodeFunctionDataApproveChecked contractAddressOptimismSepolia amt with
         | none => PostResult.badRequest "Failed to process frame request"
         | some calldata =>
           PostResult.ok ⟨"eip155:" ++ Nat.repr optimismSepoliaId, "eth_sendTransaction",
             ⟨usdcOptimismSepolia, calldata⟩⟩) := by
  unfold approvalCore
  cases parseUnits (strOrDefault it "1") 6 <;> rfl

/-- The route handler once a chain configuration and a parsed amount are
fixed: only the encoder call remains to decide the response. -/
theorem approvalCore_config_amt (nw it : Option String) (cfg : ChainConfig)
    (amt : Nat)
    (hc : chainConfigs (strOrDefault nw "optimism-sepolia") = some cfg)
    (hp : parseUnits (strOrDefault it "1") 6 = some amt) :
    approvalCore nw it =
      (match encodeFunctionDataApproveChecked cfg.contractAddress amt with
       | none => PostResult.badRequest "Failed to process frame request"
       | some calldata =>
         PostResult.ok ⟨"eip155:" ++ Nat.repr cfg.chainId, "eth_sendTransaction",
           ⟨cfg.usdcAddress, calldata⟩⟩) := by
  unfold approvalCore
  rw [hc, hp]

/-- A successful encoder call records the given spender. -/
theorem encodeChecked_spender {s : String} {a : Nat} {cd : ApproveCallData}
    (h : encodeFunctionDataApproveChecked s a = some cd) : cd.spender = s := by
  unfold encodeFunctionDataApproveChecked at h
  split at h
  · injection h with h
    subst h
    rfl
  · simp at h

/-- An empty network string is handled exactly like an absent one. -/
theorem approvalCore_networkEmpty (it : Option String) :
    approvalCore (some "") it = approvalCore none it := rfl

/-! ### Claim theorems -/

/-- Claim C1: every POST to the approval route whose body has both data
sections, with network "arbitrum-sepolia" and input text "5", returns the
200 descriptor with chainId "eip155:" followed by the arbitrum-sepolia
numeric id, method eth_sendTransaction, `to` the arbitrum-sepolia USDC
address, and data the ABI encoding of approve(arbitrum-sepolia
deposit-contract address, 5000000). -/
theorem approval_arbitrum_input_five (u : UntrustedData) (t : TrustedData)
    (hn : u.network = some "arbitrum-sepolia") (hi : u.inputText = some "5") :
    POST (some ⟨some u, some t⟩) =
      .ok ⟨"eip155:" ++ Nat.repr arbitrumSepoliaId, "eth_sendTransaction",
           ⟨usdcArbitrumSepolia,
            encodeFunctionDataApprove contractAddressArbitrumSepolia 5000000⟩⟩ := by
  rw [POST_some, hn, hi]
  decide

/-- Witness for claim C1 at a concrete payload. -/
theorem approval_arbitrum_input_five_witness :
    POST (some ⟨some ⟨1, some "5", "0xwallet", "https://frame", 0, "", "0xaddr",
                     some "arbitrum-sepolia"⟩, some ⟨"bytes"⟩⟩) =
      .ok ⟨"eip155:" ++ Nat.repr arbitrumSepoliaId, "eth_sendTransaction",
           ⟨usdcArbitrumSepolia,
            encodeFunctionDataApprove contractAddressArbitrumSepolia 5000000⟩⟩ :=
  approval_arbitrum_input_five
    ⟨1, some "5", "0xwallet", "https://frame", 0, "", "0xaddr", some "arbitrum-sepolia"⟩
    ⟨"bytes"⟩ rfl rfl

/-- Claim C2: the approval route answers 400 with the one generic body
exactly when the request body fails to parse, a data section is absent, the
resolved network key has no chain configuration, the resolved amount text
does not parse, or the encoding of the approve call throws; the error body
never carries the specific cause, and in every other case the route
answers 200 with a transaction descriptor. -/
theorem approval_failure_iff (b : Option FrameRequest) :
    (postFailureCondition b = true →
      POST b = .badRequest "Failed to process frame request") ∧
    (postFailureCondition b = false → ∃ r, POST b = .ok r) := by
  constructor
  · intro h
    match b with
    | none => rfl
    | some ⟨none, none⟩ => rfl
    | some ⟨none, some t⟩ => rfl
    | some ⟨some u, none⟩ => rfl
    | some ⟨some u, some t⟩ =>
      simp only [postFailureCondition] at h
      rw [POST_some]
      cases hc : chainConfigs (strOrDefault u.network "optimism-sepolia") with
      | none => unfold approvalCore; rw [hc]
      | some cfg =>
        rw [hc] at h
        simp only [Option.some_bind] at h
        cases hp : parseUnits (strOrDefault u.inputText "1") 6 with
        | none => unfold approvalCore; rw [hc, hp]
        | some amt =>
          rw [hp] at h
          simp only [Option.some_bind] at h
          rw [approvalCore_config_amt u.network u.inputText cfg amt hc hp]
          cases he : encodeFunctionDataApproveChecked cfg.contractAddress amt with
          | none => rfl
          | some cd => rw [he] at h; simp at h
  · intro h
    match b with
    | none => simp [postFailureCondition] at h
    | some ⟨none, none⟩ => simp [postFailureCondition] at h
    | some ⟨none, some t⟩ => simp [postFailureCondition] at h
    | some ⟨some u, none⟩ => simp [postFailureCondition] at h
    | some ⟨some u, some t⟩ =>
      simp only [postFailureCondition] at h
      rw [POST_some]
      cases hc : chainConfigs (strOrDefault u.network "optimism-sepolia") with
      | none => rw [hc] at h; simp at h
      | some cfg =>
        rw [hc] at h
        simp only [Option.some_bind] at h
        cases hp : parseUnits (strOrDefault u.inputText "1") 6 with
        | none => rw [hp] at h; simp at h
        | some amt =>
          rw [hp] at h
          simp only [Option.some_bind] at h
          rw [approvalCore_config_amt u.network u.inputText cfg amt hc hp]
          cases he : encodeFunctionDataApproveChecked cfg.contractAddress amt with
          | none => rw [he] at h; simp at h
          | some cd => exact ⟨_, rfl⟩

/-- Witness for claim C2: an unparsable body is answered with the generic
400 error. -/
theorem approval_failure_iff_witness :
    POST none = .badRequest "Failed to process frame request" :=
  (approval_failure_iff none).1 rfl

/-- Claim C3 counterexample: a completed run of the submit handler can
leave two of the three indicators active at once. With a connected wallet
and the non-ok already-registered backend response, the run ends with the
ALREADY_REGISTERED error banner active and a visible warning toast
simultaneously, so the claimed "exactly one, never two or more" fails. -/
theorem submit_two_indicators_counterexample :
    activeCount (handleSubmit (some "0xabc")
      (.notOk (some "This wallet is already registered")) initialFormState).state = 2 ∧
    (handleSubmit (some "0xabc")
      (.notOk (some "This wallet is already registered")) initialFormState).state.error.type
      = some .ALREADY_REGISTERED ∧
    (handleSubmit (some "0xabc")
      (.notOk (some "This wallet is already registered")) initialFormState).state.toast.visible
      = true ∧
    (handleSubmit (some "0xabc")
      (.notOk (some "This wallet is already registered")) initialFormState).state.toast.type
      = ToastType.warning := by decide

/-- Claim C3 (amended): after every completed run of the submit handler at
least one and at most two of the error banner, a visible success toast and
a visible warning toast are active. Exactly two are active precisely when
either a connected wallet receives the non-ok already-registered response
(the warning toast plus the ALREADY_REGISTERED banner), or the run leaves
the toast untouched — no connected wallet, or an exception carrying the
ALREADY_REGISTERED sentinel message — while a success or warning toast was
already visible from before; in every other case exactly one is active. -/
theorem submit_active_indicator_count (address : Option String)
    (outcome : FetchOutcome) (s : FormState) :
    activeCount (handleSubmit address outcome s).state =
      (if isFalsyStr address = false ∧
          outcome = .notOk (some "This wallet is already registered") then 2
       else if (isFalsyStr address = true ∨
                outcome = .throws "ALREADY_REGISTERED") ∧
               s.toast.visible = true ∧
               (s.toast.type = ToastType.success ∨
                s.toast.type = ToastType.warning) then 2
       else 1) := by
  obtain ⟨er, ⟨tv, tm, tt⟩, ld⟩ := s
  rcases hf : isFalsyStr address with _ | _
  · cases outcome with
    | ok => simp [handleSubmit, hf, activeCount, successToast]
    | notOk msg =>
      by_cases hm : msg = some "This wallet is already registered"
      · subst hm
        simp [handleSubmit, hf, activeCount, warningToast]
      · simp [handleSubmit, hf, hm, activeCount, errorToast]
    | throws m =>
      by_cases hm : m = "ALREADY_REGISTERED"
      · subst hm
        cases tv <;> cases tt <;> simp [handleSubmit, hf, activeCount]
      · simp [handleSubmit, hf, hm, activeCount, errorToast]
  · cases tv <;> cases tt <;> simp [handleSubmit, hf, activeCount]

/-- Claim C4: every run of the submit handler without a connected wallet
address sets the WALLET_NOT_CONNECTED error and returns without issuing
the registration POST. -/
theorem submit_without_wallet (address : Option String) (outcome : FetchOutcome)
    (s : FormState) (h : isFalsyStr address = true) :
    (handleSubmit address outcome s).state.error.type = some .WALLET_NOT_CONNECTED ∧
    (handleSubmit address outcome s).networkCalled = false := by
  simp [handleSubmit, h]

/-- Witness for claim C4 with no wallet address. -/
theorem submit_without_wallet_witness :
    (handleSubmit none .ok initialFormState).state.error.type
      = some .WALLET_NOT_CONNECTED ∧
    (handleSubmit none .ok initialFormState).networkCalled = false :=
  submit_without_wallet none .ok initialFormState rfl

/-- Claim C5: on a well-formed body, an absent network field resolves to
the optimism-sepolia configuration (its chain id, USDC address and
deposit-contract spender), and an absent input text resolves to an approved
amount of 1000000 base units; with both absent the full successful
descriptor follows. -/
theorem approval_absent_field_defaults (u : UntrustedData) (t : TrustedData) :
    (u.network = none →
      ∀ r, POST (some ⟨some u, some t⟩) = .ok r →
        r.chainId = "eip155:" ++ Nat.repr optimismSepoliaId ∧
        r.params.toAddress = usdcOptimismSepolia ∧
        r.params.data.spender = contractAddressOptimismSepolia) ∧
    (u.inputText = none →
      ∀ r, POST (some ⟨some u, some t⟩) = .ok r →
        r.params.data.amount = 1000000) ∧
    (u.network = none ∧ u.inputText = none →
      POST (some ⟨some u, some t⟩) =
        .ok ⟨"eip155:" ++ Nat.repr optimismSepoliaId, "eth_sendTransaction",
             ⟨usdcOptimismSepolia,
              encodeFunctionDataApprove contractAddressOptimismSepolia 1000000⟩⟩) := by
  refine ⟨?_, ?_, ?_⟩
  · intro hn r hr
    rw [POST_some, hn, approvalCore_networkNone] at hr
    cases hp : parseUnits (strOrDefault u.inputText "1") 6 with
    | none => rw [hp] at hr; simp at hr
    | some amt =>
      rw [hp] at hr
      cases he : encodeFunctionDataApproveChecked contractAddressOptimismSepolia amt with
      | none => simp [he] at hr
      | some cd =>
        simp only [he, PostResult.ok.injEq] at hr
        subst hr
        exact ⟨rfl, rfl, encodeChecked_spender he⟩
  · intro hi r hr
    rw [POST_some, hi, approvalCore_inputNone] at hr
    cases hc : chainConfigs (strOrDefault u.network "optimism-sepolia") with
    | none => rw [hc] at hr; simp at hr
    | some cfg =>
      rw [hc] at hr
      simp only [PostResult.ok.injEq] at hr
      subst hr
      rfl
  · rintro ⟨hn, hi⟩
    rw [POST_some, hn, hi]
    decide

/-- Witness for claim C5 at a payload with both optional fields absent. -/
theorem approval_absent_field_defaults_witness :
    POST (some ⟨some ⟨1, none, "0xwallet", "https://frame", 0, "", "0xaddr", none⟩,
                some ⟨"bytes"⟩⟩) =
      .ok ⟨"eip155:" ++ Nat.repr optimismSepoliaId, "eth_sendTransaction",
           ⟨usdcOptimismSepolia,
            encodeFunctionDataApprove contractAddressOptimismSepolia 1000000⟩⟩ :=
  (approval_absent_field_defaults
    ⟨1, none, "0xwallet", "https://frame", 0, "", "0xaddr", none⟩ ⟨"bytes"⟩).2.2
    ⟨rfl, rfl⟩

/-- Claim C6: with a connected wallet and a non-ok response whose message
field equals the already-registered sentence, the submit handler shows the
warning toast and sets the ALREADY_REGISTERED error, and the banner for
that error offers only the login link — no Try Again action. -/
theorem submit_already_registered_conflict (a : String) (s : FormState)
    (ha : isFalsyStr (some a) = false) :
    (handleSubmit (some a)
        (.notOk (some "This wallet is already registered")) s).state.toast
      = warningToast ∧
    (handleSubmit (some a)
        (.notOk (some "This wallet is already registered")) s).state.error.type
      = some .ALREADY_REGISTERED ∧
    errorActions .ALREADY_REGISTERED = [.goToLoginLink] ∧
    ErrorAction.tryAgainButton ∉ errorActions .ALREADY_REGISTERED := by
  refine ⟨?_, ?_, rfl, by decide⟩ <;> simp [handleSubmit, ha]

/-- Witness for claim C6 at a concrete connected address. -/
theorem submit_already_registered_conflict_witness :
    (handleSubmit (some "0xabc")
        (.notOk (some "This wallet is already registered")) initialFormState).state.toast
      = warningToast ∧
    (handleSubmit (some "0xabc")
        (.notOk (some "This wallet is already registered")) initialFormState).state.error.type
      = some .ALREADY_REGISTERED ∧
    errorActions .ALREADY_REGISTERED = [.goToLoginLink] ∧
    ErrorAction.tryAgainButton ∉ errorActions .ALREADY_REGISTERED :=
  submit_already_registered_conflict "0xabc" initialFormState (by decide)

/-- Claim C7 counterexample: the catch block dispatches on the caught
message, so an exception thrown by the request with message
"ALREADY_REGISTERED" — the internal sentinel — sets the ALREADY_REGISTERED
error and shows no toast, not REGISTRATION_FAILED with an error toast as
the claim states for every exception. -/
theorem submit_thrown_sentinel_counterexample :
    (handleSubmit (some "0xabc") (.throws "ALREADY_REGISTERED")
        initialFormState).state.error.type = some .ALREADY_REGISTERED ∧
    (handleSubmit (some "0xabc") (.throws "ALREADY_REGISTERED")
        initialFormState).state.error.type ≠ some .REGISTRATION_FAILED ∧
    (handleSubmit (some "0xabc") (.throws "ALREADY_REGISTERED")
        initialFormState).state.toast.visible = false := by decide

/-- Claim C7 (amended): with a connected wallet, a non-ok response whose
message differs from the already-registered sentence, or a request
exception whose message is not the internal ALREADY_REGISTERED sentinel,
makes the submit handler show the error toast and set REGISTRATION_FAILED,
and the Try Again action then resets the error to none. -/
theorem submit_other_failures_registration_failed (a : String)
    (outcome : FetchOutcome) (s : FormState)
    (ha : isFalsyStr (some a) = false)
    (ho : (∃ m, outcome = .notOk m ∧ m ≠ some "This wallet is already registered") ∨
          (∃ e, outcome = .throws e ∧ e ≠ "ALREADY_REGISTERED")) :
    (handleSubmit (some a) outcome s).state.toast = errorToast ∧
    (handleSubmit (some a) outcome s).state.error.type = some .REGISTRATION_FAILED ∧
    (tryAgainClick (handleSubmit (some a) outcome s).state).error.type = none := by
  rcases ho with ⟨m, rfl, hm⟩ | ⟨e, rfl, he⟩
  · simp [handleSubmit, ha, hm, tryAgainClick]
  · simp [handleSubmit, ha, he, tryAgainClick]

/-- Witness for the amended claim C7 at a concrete server failure. -/
theorem submit_other_failures_registration_failed_witness :
    (handleSubmit (some "0xabc") (.notOk (some "Internal server error"))
        initialFormState).state.toast = errorToast ∧
    (handleSubmit (some "0xabc") (.notOk (some "Internal server error"))
        initialFormState).state.error.type = some .REGISTRATION_FAILED ∧
    (tryAgainClick (handleSubmit (some "0xabc") (.notOk (some "Internal server error"))
        initialFormState).state).error.type = none :=
  submit_other_failures_registration_failed "0xabc"
    (.notOk (some "Internal server error")) initialFormState (by decide)
    (Or.inl ⟨some "Internal server error", rfl, by decide⟩)

/-- Claim C8: the derived skills list is the comma-split of the raw input
with each segment trimmed and empty segments kept; in particular
"React, TypeScript, Node.js" yields the three names and "React," keeps the
trailing empty segment. -/
theorem skills_split_and_trim :
    handleSkillsChange "React, TypeScript, Node.js"
      = ["React", "TypeScript", "Node.js"] ∧
    handleSkillsChange "React," = ["React", ""] ∧
    ∀ v : String,
      handleSkillsChange v
        = (splitOnChar ',' v.data).map (fun l => String.mk (trimChars l)) :=
  ⟨by decide, by decide, fun v => rfl⟩

/-- Claim C9: two well-formed approval requests agreeing on the network and
input-text fields receive identical responses, whatever their other payload
fields are — the handler depends on nothing else in the request. -/
theorem approval_depends_only_on_network_and_input
    (u1 u2 : UntrustedData) (t1 t2 : TrustedData)
    (hn : u1.network = u2.network) (hi : u1.inputText = u2.inputText) :
    POST (some ⟨some u1, some t1⟩) = POST (some ⟨some u2, some t2⟩) := by
  rw [POST_some, POST_some, hn, hi]

/-- Witness for claim C9: two payloads differing in every inessential field
get the same response. -/
theorem approval_depends_only_on_network_and_input_witness :
    POST (some ⟨some ⟨1, some "2", "0xA", "urlA", 5, "sA", "0x1",
                     some "optimism-sepolia"⟩, some ⟨"mA"⟩⟩) =
    POST (some ⟨some ⟨7, some "2", "0xB", "urlB", 9, "sB", "0x2",
                     some "optimism-sepolia"⟩, some ⟨"mB"⟩⟩) :=
  approval_depends_only_on_network_and_input _ _ _ _ rfl rfl

/-- Claim C10: on a well-formed body an empty network string resolves to
the optimism-sepolia configuration and an empty input text resolves to the
amount text "1", hence 1000000 base units rather than a parse failure;
with both fields empty the full successful descriptor follows. -/
theorem approval_empty_string_defaults (u : UntrustedData) (t : TrustedData) :
    (u.network = some "" →
      ∀ r, POST (some ⟨some u, some t⟩) = .ok r →
        r.chainId = "eip155:" ++ Nat.repr optimismSepoliaId ∧
        r.params.toAddress = usdcOptimismSepolia ∧
        r.params.data.spender = contractAddressOptimismSepolia) ∧
    (u.inputText = some "" →
      ∀ r, POST (some ⟨some u, some t⟩) = .ok r →
        r.params.data.amount = 1000000) ∧
    (u.network = some "" ∧ u.inputText = some "" →
      POST (some ⟨some u, some t⟩) =
        .ok ⟨"eip155:" ++ Nat.repr optimismSepoliaId, "eth_sendTransaction",
             ⟨usdcOptimismSepolia,
              encodeFunctionDataApprove contractAddressOptimismSepolia 1000000⟩⟩) := by
  refine ⟨?_, ?_, ?_⟩
  · intro hn r hr
    rw [POST_some, hn, approvalCore_networkEmpty, approvalCore_networkNone] at hr
    cases hp : parseUnits (strOrDefault u.inputText "1") 6 with
    | none => rw [hp] at hr; simp at hr
    | some amt =>
      rw [hp] at hr
      cases he : encodeFunctionDataApproveChecked contractAddressOptimismSepolia amt with
      | none => simp [he] at hr
      | some cd =>
        simp only [he, PostResult.ok.injEq] at hr
        subst hr
        exact ⟨rfl, rfl, encodeChecked_spender he⟩
  · intro hi r hr
    rw [POST_some, hi] at hr
    rw [show approvalCore u.network (some "") = approvalCore u.network none from rfl,
        approvalCore_inputNone] at hr
    cases hc : chainConfigs (strOrDefault u.network "optimism-sepolia") with
    | none => rw [hc] at hr; simp at hr
    | some cfg =>
      rw [hc] at hr
      simp only [PostResult.ok.injEq] at hr
      subst hr
      rfl
  · rintro ⟨hn, hi⟩
    rw [POST_some, hn, hi]
    decide

/-- Witness for claim C10 at a payload with both fields empty strings. -/
theorem approval_empty_string_defaults_witness :
    POST (some ⟨some ⟨1, some "", "0xwallet", "https://frame", 0, "", "0xaddr",
                     some ""⟩, some ⟨"bytes"⟩⟩) =
      .ok ⟨"eip155:" ++ Nat.repr optimismSepoliaId, "eth_sendTransaction",
           ⟨usdcOptimismSepolia,
            encodeFunctionDataApprove contractAddressOptimismSepolia 1000000⟩⟩ :=
  (approval_empty_string_defaults
    ⟨1, some "", "0xwallet", "https://frame", 0, "", "0xaddr", some ""⟩ ⟨"bytes"⟩).2.2
    ⟨rfl, rfl⟩
